import Mathlib

/-!
Verification development for the `potentials` repository: a shallow embedding of
`potentials/record/PotentialLAMMPS.py` and `potentials/record/FAQ.py`, together
with theorems settling the specification claims about them.

Conventions of the embedding:
* Python strings are Lean `String`; Python `None`-able values are `Option`.
* Masses and charges (Python floats flowing through unchanged) are modelled as `ℚ`.
* Exceptions are modelled with `Except PotError`; the error constructors use the
  specification's error names (the source raises `KeyError`, `AssertionError` and
  `ValueError` at the corresponding places).
* Output built by `info += line + "\n"` accumulation is modelled as a `List String`
  of lines joined with a trailing newline each; an extra bare `"\n"` appended by the
  source appears as an empty-string line.
-/

/-- Errors raised by the record code, named as the specification's error table names
them.  In the source: `missingField` is the `KeyError` of `load_model`,
`lengthMismatch` is the `AssertionError` of `pair_info`, `invalidInteraction` covers
the two `ValueError`s of `pair_info`, and `unknownSymbol` is the normalization
failure of the base class. -/
inductive PotError where
  | missingField (msg : String)
  | lengthMismatch
  | invalidInteraction (msg : String)
  | unknownSymbol
  deriving Repr, DecidableEq

/-- A single term of a `pair_style`, `pair_coeff` or `command` element.  Each term
carries exactly one tag.  For the `symbolsList` and `symbols` tags the source tests
`tval is True or tval.lower() == 'true'` at render time; the boolean stored here is
the result of that truthiness test.  The `other` case models unrecognized tags,
which the renderer silently skips. -/
inductive Term where
  | option (val : String)
  | parameter (val : String)
  | file (val : String)
  | symbolsList (truthy : Bool)
  | symbols (truthy : Bool)
  | other (tag : String) (val : String)
  deriving Repr, DecidableEq

/-- A `pair_coeff` block of the document: the optional `interaction.symbol` list
and the ordered term list.  An absent `interaction` element is `none`. -/
structure CoeffLine where
  interaction : Option (List String)
  terms : List Term
  deriving Repr, DecidableEq

/-- An artifact attached to the potential.  The specification treats the artifact
type as opaque apart from its download URL. -/
structure Artifact where
  url : String
  deriving Repr, DecidableEq

/-- The in-memory state of a loaded `PotentialLAMMPS` record: the four parallel
per-atom tables built by `load_model` (`_elements`, `_symbols`, `_masses`,
`_charges`), the document-level configuration strings, the comment/DOI/artifact
data, and the term structure of the `pair_style`, `pair_coeff` and `command`
elements. -/
structure PotentialLAMMPS where
  pot_dir : String
  pair_style : String
  symbols : List String
  elements : List String
  masses : List (Option ℚ)
  charges : List ℚ
  comments : String
  dois : List String
  artifacts : List Artifact
  pair_style_terms : List Term
  pair_coeff : List CoeffLine
  command : List (List Term)
  deriving Repr, DecidableEq

namespace PotentialLAMMPS

/-- `fileurls` property: the URLs of the artifacts, in artifact order. -/
def fileurls (pot : PotentialLAMMPS) : List String :=
  pot.artifacts.map (fun a => a.url)

/-- `Path(pot_dir, tval)` as used by the `file` term rendering: `pathlib` drops an
empty leading component. -/
def joinPath (pot_dir val : String) : String :=
  if pot_dir = "" then val else pot_dir ++ "/" ++ val

/-- The term renderer `__pair_terms`: folds the term list into a single
space-prefixed string.  `option`/`parameter` append their value, `file` appends the
`pot_dir`-joined path, a truthy `symbolsList` appends each coefficient symbol that
is also a system symbol in coefficient order, a truthy `symbols` appends, for each
system symbol in system order, the symbol itself when it is a coefficient symbol
and `NULL` otherwise.  Other tags are skipped. -/
def pair_terms (pot : PotentialLAMMPS) (terms : List Term)
    (system_symbols coeff_symbols : List String) : String :=
  terms.foldl (fun line t =>
    match t with
    | .option v => line ++ (" " ++ v)
    | .parameter v => line ++ (" " ++ v)
    | .file v => line ++ (" " ++ joinPath pot.pot_dir v)
    | .symbolsList b =>
      if b then
        coeff_symbols.foldl (fun l c =>
          if system_symbols.contains c then l ++ (" " ++ c) else l) line
      else line
    | .symbols b =>
      if b then
        system_symbols.foldl (fun l s =>
          l ++ (if coeff_symbols.contains s then " " ++ s else " NULL")) line
      else line
    | .other _ _ => line) ""

/-- Character-level worker for `splitNewlines`: accumulates the current line
(in reverse) and cuts at each newline character. -/
def splitNewlinesGo : List Char → List Char → List String
  | [], acc => [String.mk acc.reverse]
  | c :: cs, acc =>
    if c = '\n' then String.mk acc.reverse :: splitNewlinesGo cs []
    else splitNewlinesGo cs (c :: acc)

/-- Python's `s.split('\n')`: the list of lines of `s`, empty lines included
(`"".split('\n')` is `[""]`). -/
def splitNewlines (s : String) : List String :=
  splitNewlinesGo s.data []

/-- `print_comments` property: one `print "<line>"` statement per non-empty line of
the comments text, then a DOI block when DOIs exist and a file-URL block when
artifact URLs exist, each preceded by its own header print line. -/
def print_comments (pot : PotentialLAMMPS) : String :=
  let out := (splitNewlines pot.comments).foldl
    (fun out line =>
      if line ≠ "" then out ++ ("print \"" ++ line ++ "\"\n") else out) ""
  let out :=
    if 0 < pot.dois.length then
      pot.dois.foldl (fun o doi => o ++ ("print \"https://doi.org/" ++ doi ++ "\"\n"))
        (out ++ "print \"Publication(s) related to the potential:\"\n")
    else out
  let out :=
    if 0 < pot.fileurls.length then
      pot.fileurls.foldl (fun o url => o ++ ("print \"" ++ url ++ "\"\n"))
        (out ++ "print \"Parameter file(s) can be downloaded at:\"\n")
    else out
  out

/-- The interaction pair of a coefficient block: the `interaction.symbol` value,
defaulting to the wildcard `["*", "*"]` when the `interaction` element is absent
(`coeff_line['interaction'].get('symbol', ['*','*'])` with the outer
`'interaction' in coeff_line` test). -/
def getInteraction (block : CoeffLine) : List String :=
  match block.interaction with
  | none => ["*", "*"]
  | some l => l

/-- `len(coeff_line.finds('symbols')) > 0`: the block declares a `symbols`-tagged
term somewhere in its term list. -/
def hasSymbolsTerm (terms : List Term) : Bool :=
  terms.any (fun t => match t with | .symbols _ => true | _ => false)

/-- The general pairwise double loop of `pair_info`: for `i` in `range(n)`, for `j`
in `range(i, n)`, emit `pair_coeff <i+1> <j+1><rendered>` when
`(symbols[i], symbols[j])` matches `(c0, c1)` in either order. -/
def pairwiseLines (pot : PotentialLAMMPS) (terms : List Term)
    (symbols : List String) (c0 c1 : String) : List String :=
  (List.range symbols.length).flatMap (fun i =>
    ((List.range' i (symbols.length - i)).filter (fun j =>
      (symbols.getD i "" == c0 && symbols.getD j "" == c1)
      || (symbols.getD i "" == c1 && symbols.getD j "" == c0))).map (fun j =>
        "pair_coeff " ++ toString (i + 1) ++ " " ++ toString (j + 1)
          ++ pot.pair_terms terms symbols [c0, c1]))

/-- The eam special-case loop of `pair_info`: for every index `i` whose symbol
equals the (diagonal) interaction symbol, emit `pair_coeff <i+1> <i+1><rendered>`. -/
def eamLines (pot : PotentialLAMMPS) (terms : List Term)
    (symbols : List String) (c0 c1 : String) : List String :=
  ((List.range symbols.length).filter (fun i => symbols.getD i "" == c0)).map
    (fun i => "pair_coeff " ++ toString (i + 1) ++ " " ++ toString (i + 1)
      ++ pot.pair_terms terms symbols [c0, c1])

/-- The lines contributed by one `pair_coeff` block of the document, mirroring the
branch structure of `pair_info`: the wildcard branch (which renders against
`coeff_symbols = self.symbols`, the stored table, and always emits one line), the
many-body branch (the source appends an extra newline there, modelled as a trailing
empty line), then the pairwise branch with its two-symbol check, the eam special
case and the general double loop. -/
def coeffBlockLines (pot : PotentialLAMMPS) (symbols : List String)
    (block : CoeffLine) : Except PotError (List String) :=
  let interaction := getInteraction block
  if interaction = ["*", "*"] then
    .ok ["pair_coeff * *" ++ pot.pair_terms block.terms symbols pot.symbols]
  else if hasSymbolsTerm block.terms then
    .ok ["pair_coeff * *" ++ pot.pair_terms block.terms symbols interaction, ""]
  else
    match interaction with
    | [c0, c1] =>
      if pot.pair_style = "eam" then
        if c0 ≠ c1 then
          .error (.invalidInteraction "Only i==j interactions allowed for eam style")
        else
          .ok (eamLines pot block.terms symbols c0 c1)
      else
        .ok (pairwiseLines pot block.terms symbols c0 c1)
    | _ => .error (.invalidInteraction "Pair potential interactions need two listed elements")

/-- The lines of the whole `pair_coeff` section: each block's lines in document
block order, the first raised error aborting the generation. -/
def allCoeffLines (pot : PotentialLAMMPS) (symbols : List String) :
    List CoeffLine → Except PotError (List String)
  | [] => .ok []
  | b :: bs =>
    match coeffBlockLines pot symbols b with
    | .error e => .error e
    | .ok l =>
      match allCoeffLines pot symbols bs with
      | .error e => .error e
      | .ok rest => .ok (l ++ rest)

/-- Modelled from the spec: the stored document mass for a symbol.  The base-class
lookup (`BasePotentialLAMMPS.masses`) is not under `src/`; the parallel-array data
model makes the stored mass of a symbol the `_masses` entry at the symbol's index
in the `_symbols` table. -/
def stored_mass (pot : PotentialLAMMPS) (symbol : String) : Option ℚ :=
  match pot.symbols.indexOf? symbol with
  | none => none
  | some i => pot.masses.getD i none

/-- Modelled from the spec: the default mass for a symbol, `self.masses(symbol,
prompt=prompt)[0]` of the base class (not under `src/`).  The spec: entries are
"filled per-symbol from the document's stored mass, falling back to an external
atomic-mass lookup service when no document mass exists for that symbol"; the
external service is the `atomicMass` function parameter, which receives the prompt
flag. -/
def default_mass (pot : PotentialLAMMPS) (atomicMass : String → Bool → ℚ)
    (symbol : String) (prompt : Bool) : ℚ :=
  match stored_mass pot symbol with
  | some m => m
  | none => atomicMass symbol prompt

/-- The `None`-filling loop of `pair_info`: each `None` mass entry is replaced by
the default mass of the symbol at the same index. -/
def fill_masses (pot : PotentialLAMMPS) (atomicMass : String → Bool → ℚ)
    (prompt : Bool) (symbols : List String) (masses : List (Option ℚ)) : List ℚ :=
  List.zipWith (fun s mo =>
    match mo with
    | some v => v
    | none => default_mass pot atomicMass s prompt) symbols masses

/-- Modelled from the spec: `normalize_symbols` of the base class is not under
`src/`.  Spec §4.1: the output preserves the caller's requested order and length
and the call fails with `UnknownSymbolError` when a requested symbol matches no
entry in the document's stored symbols table. -/
def normalize_symbols (pot : PotentialLAMMPS) (requested : List String) :
    Except PotError (List String) :=
  if requested.all (fun s => pot.symbols.contains s) then .ok requested
  else .error .unknownSymbol

/-- The `mass <i+1> <value>` lines of `pair_info`, one per resolved mass, 1-based. -/
def mass_lines (masses : List ℚ) : String :=
  String.join (masses.enum.map (fun p =>
    "mass " ++ toString (p.1 + 1) ++ " " ++ toString p.2 ++ "\n"))

/-- `pair_info`: resolves the symbol list (defaulting to the stored table),
checks a supplied mass list's length against the symbol list (the
`AssertionError`, modelled as `lengthMismatch`), normalizes the symbols, extends
and `None`-fills the mass list, then assembles: the comment prints (when
requested), the `pair_style` line, the `pair_coeff` section, the `mass` lines with
a blank separator line, and the rendered extra `command` lines (trimmed).  The
`units` and `lammpsdate` parameters appear in the source signature with defaults
but are never referenced in the body. -/
def pair_info (pot : PotentialLAMMPS) (atomicMass : String → Bool → ℚ)
    (symbolsArg : Option (List String)) (massesArg : Option (List (Option ℚ)))
    (units : Option String) (prompt : Bool) (comments : Bool)
    (lammpsdate : Nat × Nat × Nat) : Except PotError String :=
  let symbols0 := match symbolsArg with
    | none => pot.symbols
    | some l => l
  let masses0check : Except PotError (List (Option ℚ)) := match massesArg with
    | some m =>
      if m.length = symbols0.length then .ok m
      else .error PotError.lengthMismatch
    | none => .ok [none]
  match masses0check with
  | .error e => .error e
  | .ok masses0 =>
    match normalize_symbols pot symbols0 with
    | .error e => .error e
    | .ok symbols =>
      let masses := fill_masses pot atomicMass prompt symbols
        (masses0 ++ List.replicate (symbols.length - masses0.length) none)
      let info1 := if comments then pot.print_comments else ""
      let info2 := info1 ++ "pair_style " ++ pot.pair_style
        ++ pot.pair_terms pot.pair_style_terms [] [] ++ "\n"
      match allCoeffLines pot symbols pot.pair_coeff with
      | .error e => .error e
      | .ok coeffs =>
        let info3 := info2 ++ String.join (coeffs.map (fun l => l ++ "\n"))
        let info4 := info3 ++ mass_lines masses ++ "\n"
        let info5 := info4 ++ String.join (pot.command.map (fun c =>
          (pot.pair_terms c symbols pot.symbols).trim ++ "\n"))
        .ok info5

end PotentialLAMMPS

/-- One `atom` entry of the input document, before validation: each of the four
fields may be absent. -/
structure AtomEntry where
  element : Option String
  symbol : Option String
  mass : Option ℚ
  charge : Option ℚ
  deriving Repr, DecidableEq

/-- The per-atom body of the `load_model` loop: reads the four fields with their
defaults (`charge` defaults to `0.0`), fails when `element` is absent and `mass`
is absent, fails when `element` is absent and `symbol` is absent, defaults an
absent `element` to the symbol and an absent `symbol` to the element, and returns
the `(element, symbol, mass, charge)` row appended to the four tables. -/
def load_atom (atom : AtomEntry) : Except PotError (String × String × Option ℚ × ℚ) :=
  let charge : ℚ := atom.charge.getD 0
  let elementCheck : Except PotError String :=
    match atom.element with
    | none =>
      match atom.mass with
      | none => .error (PotError.missingField
          "mass is required for each atom if element is not listed")
      | some _ =>
        match atom.symbol with
        | none => .error (PotError.missingField
            "symbol is required for each atom if element is not listed")
        | some s => .ok s
    | some e => .ok e
  match elementCheck with
  | .error e => .error e
  | .ok element =>
    let symbol : String :=
      match atom.symbol with
      | none => element
      | some s => s
    .ok (element, symbol, atom.mass, charge)

/-- The atom loop of `load_model`: builds the four parallel tables
`(_elements, _symbols, _masses, _charges)` in document order, aborting on the
first invalid atom entry. -/
def load_atoms : List AtomEntry →
    Except PotError (List String × List String × List (Option ℚ) × List ℚ)
  | [] => .ok ([], [], [], [])
  | a :: rest =>
    match load_atom a with
    | .error err => .error err
    | .ok (e, s, m, c) =>
      match load_atoms rest with
      | .error err => .error err
      | .ok (es, ss, ms, cs) => .ok (e :: es, s :: ss, m :: ms, c :: cs)

/-- The mutable state of a `FAQ` record: the record name and the stored question
and answer (all `None` until set). -/
structure FAQ where
  name : Option String
  question : Option String
  answer : Option String
  deriving Repr, DecidableEq

namespace FAQ

/-- `FAQ.set_values`: assigns, in source order, the question, the answer and the
name — each only when the corresponding argument is not `None` (the property
setters convert via `str`, the identity on strings). -/
def set_values (faq : FAQ) (name question answer : Option String) : FAQ :=
  let f1 := match question with
    | none => faq
    | some q => { faq with question := some q }
  let f2 := match answer with
    | none => f1
    | some a => { f1 with answer := some a }
  match name with
  | none => f2
  | some n => { f2 with name := some n }

end FAQ

/-- Specification-side rendering of the general pairwise rule, written from the
spec's words for comparison with the source-side `pairwiseLines`: a line for every
index pair `(i, j)`, `i ≤ j`, in ascending order, whose unordered symbol pair
(an element of `Sym2 String`) equals the block's unordered interaction pair. -/
def specPairwiseLines (pot : PotentialLAMMPS) (terms : List Term)
    (symbols : List String) (c0 c1 : String) : List String :=
  (List.range symbols.length).flatMap (fun i =>
    ((List.range' i (symbols.length - i)).filter (fun j =>
      Sym2.mk (symbols.getD i "", symbols.getD j "") = Sym2.mk (c0, c1))).map (fun j =>
        "pair_coeff " ++ toString (i + 1) ++ " " ++ toString (j + 1)
          ++ pot.pair_terms terms symbols [c0, c1]))

/-- A concrete two-symbol record whose wildcard coefficient block carries a
`symbolsList` term: the example separating the stored symbol table from a
reordered resolved symbol list. -/
def potC1 : PotentialLAMMPS :=
  { pot_dir := "", pair_style := "eam/alloy", symbols := ["A", "B"],
    elements := ["A", "B"], masses := [some 1, some 2], charges := [0, 0],
    comments := "", dois := [], artifacts := [],
    pair_style_terms := [],
    pair_coeff := [{ interaction := none, terms := [Term.symbolsList true] }],
    command := [] }

/-- The wildcard coefficient block of `potC1`. -/
def blockC1 : CoeffLine :=
  { interaction := none, terms := [Term.symbolsList true] }

/-- A concrete three-symbol general pairwise record with one coefficient block
naming the unordered pair of the first and third symbols. -/
def potC2 : PotentialLAMMPS :=
  { pot_dir := "", pair_style := "lj/cut", symbols := ["A", "B", "C"],
    elements := ["A", "B", "C"], masses := [some 1, some 2, some 3],
    charges := [0, 0, 0], comments := "", dois := [], artifacts := [],
    pair_style_terms := [],
    pair_coeff := [{ interaction := some ["A", "C"], terms := [Term.parameter "7.0"] }],
    command := [] }

/-- The pairwise coefficient block of `potC2`. -/
def blockC2 : CoeffLine :=
  { interaction := some ["A", "C"], terms := [Term.parameter "7.0"] }

/-- A concrete two-symbol record with `pair_style` equal to `eam` and one diagonal
coefficient block per symbol. -/
def potC3 : PotentialLAMMPS :=
  { pot_dir := "", pair_style := "eam", symbols := ["A", "B"],
    elements := ["A", "B"], masses := [some 1, some 2], charges := [0, 0],
    comments := "", dois := [], artifacts := [],
    pair_style_terms := [],
    pair_coeff := [{ interaction := some ["A", "A"], terms := [Term.file "a.eam"] },
                   { interaction := some ["B", "B"], terms := [Term.file "b.eam"] }],
    command := [] }

/-- An off-diagonal eam coefficient block naming both symbols of `potC3`. -/
def blockC3AB : CoeffLine :=
  { interaction := some ["A", "B"], terms := [] }

/-- A concrete three-symbol record with one many-body coefficient block whose
interaction names the first and third symbols. -/
def potC4 : PotentialLAMMPS :=
  { pot_dir := "", pair_style := "sw", symbols := ["A", "B", "C"],
    elements := ["A", "B", "C"], masses := [some 1, some 2, some 3],
    charges := [0, 0, 0], comments := "", dois := [], artifacts := [],
    pair_style_terms := [],
    pair_coeff := [{ interaction := some ["A", "C"],
                     terms := [Term.file "f.sw", Term.symbols true] }],
    command := [] }

/-- The many-body coefficient block of `potC4`. -/
def blockC4 : CoeffLine :=
  { interaction := some ["A", "C"], terms := [Term.file "f.sw", Term.symbols true] }

/-- A concrete two-symbol record used to exercise the mass-length check. -/
def potC5 : PotentialLAMMPS :=
  { pot_dir := "", pair_style := "lj/cut", symbols := ["A", "B"],
    elements := ["A", "B"], masses := [some 1, some 2], charges := [0, 0],
    comments := "", dois := [], artifacts := [],
    pair_style_terms := [], pair_coeff := [], command := [] }

/-- A concrete record with a two-line comment text separated by an empty line, one
DOI and no artifacts, used to exercise the comment-print block. -/
def potC8 : PotentialLAMMPS :=
  { pot_dir := "", pair_style := "x", symbols := ["A"],
    elements := ["A"], masses := [some 1], charges := [0],
    comments := "hi\n\nyo", dois := ["10.5/d"], artifacts := [],
    pair_style_terms := [], pair_coeff := [], command := [] }

section HelperLemmas

/-- Pulling the initial accumulator out of a string-append fold. -/
theorem string_foldl_append_out (xs : List String) (init : String) :
    xs.foldl (fun r s => r ++ s) init = init ++ xs.foldl (fun r s => r ++ s) "" := by
  induction xs generalizing init with
  | nil => simp [String.append_empty]
  | cons x xs ih =>
    rw [List.foldl_cons, List.foldl_cons, ih (init ++ x), ih ("" ++ x),
      String.empty_append, String.append_assoc]

/-- `String.join` of a cons. -/
theorem string_join_cons (x : String) (xs : List String) :
    String.join (x :: xs) = x ++ String.join xs := by
  show (x :: xs).foldl (fun r s => r ++ s) "" = x ++ xs.foldl (fun r s => r ++ s) ""
  rw [List.foldl_cons, String.empty_append, string_foldl_append_out]

/-- Appending strings one by one from the left factors through `String.join`. -/
theorem foldl_append_eq_join {α : Type} (f : α → String) (l : List α) (init : String) :
    l.foldl (fun acc x => acc ++ f x) init = init ++ String.join (l.map f) := by
  induction l generalizing init with
  | nil => simp [String.join, String.append_empty]
  | cons x xs ih =>
    rw [List.foldl_cons, List.map_cons, ih, string_join_cons, String.append_assoc]

/-- Conditionally appending strings from the left factors through a `filter` and
`String.join`. -/
theorem foldl_ite_append_eq_join {α : Type} (p : α → Prop) [DecidablePred p]
    (f : α → String) (l : List α) (init : String) :
    l.foldl (fun acc x => if p x then acc ++ f x else acc) init
      = init ++ String.join ((l.filter (fun x => p x)).map f) := by
  induction l generalizing init with
  | nil => simp [String.join, String.append_empty]
  | cons x xs ih =>
    by_cases hp : p x
    · rw [List.foldl_cons, if_pos hp, ih, List.filter_cons_of_pos (by simpa using hp),
        List.map_cons, string_join_cons, String.append_assoc]
    · rw [List.foldl_cons, if_neg hp, ih, List.filter_cons_of_neg (by simpa using hp)]

/-- Deciding a string equality agrees with the boolean equality test. -/
theorem string_decide_beq (a c : String) : decide (a = c) = (a == c) := by
  by_cases h : a = c <;> simp [h, beq_iff_eq]

/-- The source's either-order pairwise match condition agrees with the
specification's unordered-pair equality. -/
theorem sym2_match_bridge (a b c d : String) :
    (decide (Sym2.mk (a, b) = Sym2.mk (c, d)))
      = ((a == c && b == d) || (a == d && b == c)) := by
  simp only [Sym2.eq_iff]
  simp [string_decide_beq]

/-- A string with a known prefix keeps it under a further append. -/
theorem append_left_prefix (p a y : String) (h : ∃ r, a = p ++ r) :
    ∃ r, a ++ y = p ++ r := by
  obtain ⟨r, hr⟩ := h
  exact ⟨r ++ y, by rw [hr, String.append_assoc]⟩

end HelperLemmas

/-- C9: two calls to `pair_info` on the same loaded document and otherwise
identical arguments that differ only in the `units` and `lammpsdate` parameters
return identical results: both parameters are accepted by the signature but never
influence the output. -/
theorem pair_info_const_in_units_lammpsdate (pot : PotentialLAMMPS)
    (atomicMass : String → Bool → ℚ) (symbolsArg : Option (List String))
    (massesArg : Option (List (Option ℚ))) (u1 u2 : Option String)
    (prompt comments : Bool) (d1 d2 : Nat × Nat × Nat) :
    pot.pair_info atomicMass symbolsArg massesArg u1 prompt comments d1
      = pot.pair_info atomicMass symbolsArg massesArg u2 prompt comments d2 := rfl

/-- C10: `FAQ.set_values` updates only the fields whose arguments are not `None`:
the resulting question is the old question when the `question` argument is `None`
and the argument's value otherwise, and likewise for `answer` and `name`; in
particular each non-`None` argument changes only its own field. -/
theorem faq_set_values_frame (f : FAQ) (n q a : Option String) :
    (f.set_values n q a).question = (match q with | none => f.question | some x => some x)
    ∧ (f.set_values n q a).answer = (match a with | none => f.answer | some x => some x)
    ∧ (f.set_values n q a).name = (match n with | none => f.name | some x => some x) := by
  cases n <;> cases q <;> cases a <;> simp [FAQ.set_values]

/-- C6: during `load_model`, an atom entry with `element` absent and `mass` or
`symbol` also absent fails with `MissingFieldError`; with only `symbol` absent the
symbol defaults to the element; with only `element` absent (mass and symbol
present) the element defaults to the symbol; an absent `charge` defaults to `0.0`. -/
theorem load_atom_defaults (atom : AtomEntry) :
    (atom.element = none → (atom.mass = none ∨ atom.symbol = none) →
      ∃ msg, load_atom atom = Except.error (PotError.missingField msg))
    ∧ (∀ e, atom.element = some e → atom.symbol = none →
      load_atom atom = Except.ok (e, e, atom.mass, atom.charge.getD 0))
    ∧ (∀ s, atom.element = none → atom.symbol = some s → atom.mass.isSome →
      load_atom atom = Except.ok (s, s, atom.mass, atom.charge.getD 0))
    ∧ (atom.charge = none → ∀ r, load_atom atom = Except.ok r → r.2.2.2 = 0) := by
  obtain ⟨el, sy, ma, ch⟩ := atom
  cases el <;> cases sy <;> cases ma <;> cases ch <;>
    simp [load_atom, Option.getD]

/-- Witness for C6: concrete atom entries exercising each hypothesis of
`load_atom_defaults`. -/
theorem load_atom_defaults_witness :
    (∃ msg, load_atom ⟨none, some "A", none, none⟩
      = Except.error (PotError.missingField msg))
    ∧ load_atom ⟨some "Ni", none, some 1, none⟩ = Except.ok ("Ni", "Ni", some 1, 0)
    ∧ load_atom ⟨none, some "Cu", some 2, some 3⟩ = Except.ok ("Cu", "Cu", some 2, 3) :=
  ⟨(load_atom_defaults ⟨none, some "A", none, none⟩).1 rfl (Or.inl rfl),
   by simpa using (load_atom_defaults ⟨some "Ni", none, some 1, none⟩).2.1 "Ni" rfl rfl,
   by simpa using (load_atom_defaults ⟨none, some "Cu", some 2, some 3⟩).2.2.1 "Cu" rfl rfl rfl⟩

/-- C7: for every atom list accepted by the `load_model` loop, the four resulting
per-atom tables have equal length.  (All modelled operations on the loaded record
are pure functions that return no modified record, so the equality persists for
the record's life.) -/
theorem load_atoms_table_lengths (atoms : List AtomEntry)
    (es ss : List String) (ms : List (Option ℚ)) (cs : List ℚ)
    (h : load_atoms atoms = Except.ok (es, ss, ms, cs)) :
    es.length = ss.length ∧ ss.length = ms.length ∧ ms.length = cs.length := by
  induction atoms generalizing es ss ms cs with
  | nil =>
    simp only [load_atoms, Except.ok.injEq, Prod.mk.injEq] at h
    obtain ⟨h1, h2, h3, h4⟩ := h
    subst h1; subst h2; subst h3; subst h4
    simp
  | cons a rest ih =>
    rw [show load_atoms (a :: rest)
        = (match load_atom a with
          | .error err => .error err
          | .ok (e, s, m, c) =>
            match load_atoms rest with
            | .error err => .error err
            | .ok (es, ss, ms, cs) => .ok (e :: es, s :: ss, m :: ms, c :: cs)) from rfl] at h
    cases hla : load_atom a with
    | error err => rw [hla] at h; exact absurd h (by simp)
    | ok v =>
      rw [hla] at h
      obtain ⟨e, s, m, c⟩ := v
      cases hrest : load_atoms rest with
      | error err => rw [hrest] at h; exact absurd h (by simp)
      | ok w =>
        obtain ⟨es', ss', ms', cs'⟩ := w
        rw [hrest] at h
        simp only [Except.ok.injEq, Prod.mk.injEq] at h
        obtain ⟨h1, h2, h3, h4⟩ := h
        subst h1; subst h2; subst h3; subst h4
        obtain ⟨l1, l2, l3⟩ := ih es' ss' ms' cs' hrest
        simp [l1, l2, l3]

/-- Witness for C7: `load_atoms_table_lengths` applied to a concrete two-atom
document. -/
theorem load_atoms_table_lengths_witness :
    (["Ni", "Cu"] : List String).length = (["Ni", "Cu"] : List String).length
    ∧ (["Ni", "Cu"] : List String).length = ([some 1, some 2] : List (Option ℚ)).length
    ∧ ([some 1, some 2] : List (Option ℚ)).length = ([0, 1] : List ℚ).length :=
  load_atoms_table_lengths
    [⟨some "Ni", none, some 1, none⟩, ⟨none, some "Cu", some 2, some 1⟩]
    ["Ni", "Cu"] ["Ni", "Cu"] [some 1, some 2] [0, 1] (by rfl)

/-- C1 (amended): in `pair_info`, a coefficient block whose interaction is the
wildcard `["*","*"]` (or absent) is always rendered with `systemSymbols` equal to
the resolved symbol list and `coeffSymbols` equal to the document's full stored
symbol table (`self.symbols` — not the resolved list), and contributes exactly one
`pair_coeff * *<rendered>` line, for every resolved symbol subset/ordering. -/
theorem wildcard_block_line (pot : PotentialLAMMPS) (resolved : List String)
    (block : CoeffLine) (h : PotentialLAMMPS.getInteraction block = ["*", "*"]) :
    PotentialLAMMPS.coeffBlockLines pot resolved block
      = Except.ok ["pair_coeff * *"
          ++ pot.pair_terms block.terms resolved pot.symbols] := by
  simp [PotentialLAMMPS.coeffBlockLines, h]

/-- Witness for C1: the wildcard block of `potC1` rendered under the reordered
resolved list `["B", "A"]`. -/
theorem wildcard_block_line_witness :
    PotentialLAMMPS.coeffBlockLines potC1 ["B", "A"] blockC1
      = Except.ok ["pair_coeff * *"
          ++ potC1.pair_terms blockC1.terms ["B", "A"] potC1.symbols] :=
  wildcard_block_line potC1 ["B", "A"] blockC1 (by decide)

/-- Counterexample to C1 as stated: for the resolved ordering `["B", "A"]` of
`potC1`'s stored table `["A", "B"]`, the wildcard block's `symbolsList` term is
rendered against the stored table (producing `pair_coeff * * A B`), not against
the resolved list as the claim requires (which would produce
`pair_coeff * * B A`). -/
theorem wildcard_block_line_counterexample :
    PotentialLAMMPS.coeffBlockLines potC1 ["B", "A"] blockC1
      ≠ Except.ok ["pair_coeff * *"
          ++ potC1.pair_terms blockC1.terms ["B", "A"] ["B", "A"]] :=
  fun h => absurd (Except.ok.inj h) (by decide)

/-- C2: a non-many-body pairwise coefficient block naming exactly two symbols,
under a `pair_style` other than `eam`, contributes `pair_coeff <i+1> <j+1>` lines
for exactly the index pairs `(i, j)`, `i ≤ j`, whose unordered resolved-symbol
pair equals the block's unordered interaction pair, in ascending `(i, j)` order
(`specPairwiseLines` states this with `Sym2`, the type of unordered pairs;
document block order across blocks is the list order of `allCoeffLines`). -/
theorem pairwise_block_lines (pot : PotentialLAMMPS) (resolved : List String)
    (block : CoeffLine) (c0 c1 : String)
    (heam : pot.pair_style ≠ "eam")
    (hi : PotentialLAMMPS.getInteraction block = [c0, c1])
    (hw : PotentialLAMMPS.getInteraction block ≠ ["*", "*"])
    (hs : PotentialLAMMPS.hasSymbolsTerm block.terms = false) :
    PotentialLAMMPS.coeffBlockLines pot resolved block
      = Except.ok (specPairwiseLines pot block.terms resolved c0 c1) := by
  have key : specPairwiseLines pot block.terms resolved c0 c1
      = PotentialLAMMPS.pairwiseLines pot block.terms resolved c0 c1 := by
    unfold specPairwiseLines PotentialLAMMPS.pairwiseLines
    simp only [sym2_match_bridge]
  have hw2 : ¬([c0, c1] : List String) = ["*", "*"] := hi ▸ hw
  rw [key]
  unfold PotentialLAMMPS.coeffBlockLines
  rw [hi, if_neg hw2, hs]
  simp [heam]

/-- Witness for C2: the `{A, C}` block of `potC2` over resolved symbols
`[A, B, C]` emits exactly the single line `pair_coeff 1 3 7.0`. -/
theorem pairwise_block_lines_witness :
    PotentialLAMMPS.coeffBlockLines potC2 ["A", "B", "C"] blockC2
      = Except.ok (specPairwiseLines potC2 blockC2.terms ["A", "B", "C"] "A" "C")
    ∧ PotentialLAMMPS.coeffBlockLines potC2 ["A", "B", "C"] blockC2
      = Except.ok ["pair_coeff 1 3 7.0"] :=
  ⟨pairwise_block_lines potC2 ["A", "B", "C"] blockC2 "A" "C" (by decide) rfl
    (by decide) rfl,
   by rfl⟩

/-- C3: with `pair_style` equal to `eam`, a non-many-body two-symbol coefficient
block whose interaction symbols differ raises `InvalidInteractionError`, and a
diagonal block emits one `pair_coeff <i+1> <i+1><rendered>` line for every
resolved-symbol index `i` whose symbol equals the interaction symbol. -/
theorem eam_block_lines (pot : PotentialLAMMPS) (resolved : List String)
    (block : CoeffLine) (c0 c1 : String)
    (heam : pot.pair_style = "eam")
    (hi : PotentialLAMMPS.getInteraction block = [c0, c1])
    (hw : PotentialLAMMPS.getInteraction block ≠ ["*", "*"])
    (hs : PotentialLAMMPS.hasSymbolsTerm block.terms = false) :
    (c0 ≠ c1 → PotentialLAMMPS.coeffBlockLines pot resolved block
      = Except.error (PotError.invalidInteraction
          "Only i==j interactions allowed for eam style"))
    ∧ (c0 = c1 → PotentialLAMMPS.coeffBlockLines pot resolved block
      = Except.ok (((List.range resolved.length).filter
          (fun i => resolved.getD i "" == c0)).map (fun i =>
            "pair_coeff " ++ toString (i + 1) ++ " " ++ toString (i + 1)
              ++ pot.pair_terms block.terms resolved [c0, c1]))) := by
  have hw2 : ¬([c0, c1] : List String) = ["*", "*"] := hi ▸ hw
  constructor
  · intro hne
    unfold PotentialLAMMPS.coeffBlockLines
    rw [hi, if_neg hw2, hs]
    simp [heam, hne]
  · intro heq
    unfold PotentialLAMMPS.coeffBlockLines
    rw [hi, if_neg hw2, hs]
    subst heq
    simp [heam, PotentialLAMMPS.eamLines]

/-- Witness for C3: the off-diagonal `{A, B}` eam block of `potC3` raises the
error, and its two diagonal blocks emit exactly `pair_coeff 1 1` and
`pair_coeff 2 2` lines. -/
theorem eam_block_lines_witness :
    PotentialLAMMPS.coeffBlockLines potC3 ["A", "B"] blockC3AB
      = Except.error (PotError.invalidInteraction
          "Only i==j interactions allowed for eam style")
    ∧ PotentialLAMMPS.allCoeffLines potC3 ["A", "B"] potC3.pair_coeff
      = Except.ok ["pair_coeff 1 1 a.eam", "pair_coeff 2 2 b.eam"] :=
  ⟨(eam_block_lines potC3 ["A", "B"] blockC3AB "A" "B" rfl rfl (by decide) rfl).1
    (by decide),
   by rfl⟩

/-- C4: a non-wildcard coefficient block containing a `symbols`-tagged term is
rendered exactly once with `coeffSymbols` equal to the block's interaction
symbols and contributes a single `pair_coeff * *<rendered>` line (the source
appends one extra blank line after it, the trailing `""`); and a truthy
`symbols` term appends, for each system symbol in system order, exactly one
token — the symbol itself when it is among the coefficient symbols, else `NULL`. -/
theorem many_body_block_line (pot : PotentialLAMMPS) (resolved : List String)
    (block : CoeffLine) (hw : PotentialLAMMPS.getInteraction block ≠ ["*", "*"])
    (hs : PotentialLAMMPS.hasSymbolsTerm block.terms = true) :
    PotentialLAMMPS.coeffBlockLines pot resolved block
      = Except.ok ["pair_coeff * *"
          ++ pot.pair_terms block.terms resolved
              (PotentialLAMMPS.getInteraction block), ""]
    ∧ ∀ coeffs, pot.pair_terms [Term.symbols true] resolved coeffs
        = String.join (resolved.map (fun s =>
            if coeffs.contains s then " " ++ s else " NULL")) := by
  constructor
  · simp [PotentialLAMMPS.coeffBlockLines, hw, hs]
  · intro coeffs
    show resolved.foldl (fun l s =>
        l ++ (if coeffs.contains s then " " ++ s else " NULL")) "" = _
    rw [foldl_append_eq_join
      (fun s => if coeffs.contains s then " " ++ s else " NULL") resolved ""]
    rw [String.empty_append]

/-- Witness for C4: the many-body `{A, C}` block of `potC4` over resolved symbols
`[A, B, C]`, and the `symbols`-term rendering with `B` padded to `NULL`. -/
theorem many_body_block_line_witness :
    PotentialLAMMPS.coeffBlockLines potC4 ["A", "B", "C"] blockC4
      = Except.ok ["pair_coeff * *"
          ++ potC4.pair_terms blockC4.terms ["A", "B", "C"]
              (PotentialLAMMPS.getInteraction blockC4), ""]
    ∧ potC4.pair_terms [Term.symbols true] ["A", "B", "C"] ["A", "C"]
      = String.join ((["A", "B", "C"] : List String).map (fun s =>
          if (["A", "C"] : List String).contains s then " " ++ s else " NULL")) :=
  ⟨(many_body_block_line potC4 ["A", "B", "C"] blockC4 (by decide) rfl).1,
   (many_body_block_line potC4 ["A", "B", "C"] blockC4 (by decide) rfl).2 ["A", "C"]⟩

/-- C5: a supplied mass list whose length differs from the resolved symbols'
length makes `pair_info` fail with `LengthMismatchError`, the whole call returning
the error so no output line is produced; when the lengths match, `None` entries
are replaced per-symbol by the document's stored mass, falling back to the
external atomic-mass lookup when no stored mass exists for the symbol. -/
theorem pair_info_mass_resolution (pot : PotentialLAMMPS)
    (atomicMass : String → Bool → ℚ) (syms : List String) (m : List (Option ℚ))
    (units : Option String) (prompt comments : Bool) (d : Nat × Nat × Nat) :
    (m.length ≠ syms.length →
      pot.pair_info atomicMass (some syms) (some m) units prompt comments d
        = Except.error PotError.lengthMismatch)
    ∧ (∀ s, PotentialLAMMPS.default_mass pot atomicMass s prompt
        = match PotentialLAMMPS.stored_mass pot s with
          | some v => v
          | none => atomicMass s prompt)
    ∧ (m.length = syms.length →
      PotentialLAMMPS.fill_masses pot atomicMass prompt syms
          (m ++ List.replicate (syms.length - m.length) none)
        = List.zipWith (fun s mo => match mo with
            | some v => v
            | none => PotentialLAMMPS.default_mass pot atomicMass s prompt) syms m) := by
  refine ⟨fun hne => ?_, fun s => rfl, fun heq => ?_⟩
  · simp [PotentialLAMMPS.pair_info, hne]
  · rw [heq, Nat.sub_self, List.replicate_zero, List.append_nil]
    rfl

/-- Witness for C5: `masses = [1.0]` against the two resolved symbols of `potC5`
raises `LengthMismatchError`. -/
theorem pair_info_mass_resolution_witness :
    potC5.pair_info (fun _ _ => 99) (some ["A", "B"]) (some [some 1]) none false
        true (2020, 10, 29)
      = Except.error PotError.lengthMismatch :=
  (pair_info_mass_resolution potC5 (fun _ _ => 99) ["A", "B"] [some 1] none false
    true (2020, 10, 29)).1 (by decide)

/-- C8: the comment-print block consists of one print statement per non-empty
comment line in order (empty lines dropped, not printed blank), then a
DOI-listing block only when the DOI list is non-empty and a file-download-URL
block only when the URL list is non-empty, each preceded by its own single header
line; and with comments enabled the `pair_info` output begins with exactly this
block. -/
theorem comment_prints_structure (pot : PotentialLAMMPS)
    (atomicMass : String → Bool → ℚ) (symbolsArg : Option (List String))
    (massesArg : Option (List (Option ℚ))) (units : Option String)
    (prompt : Bool) (d : Nat × Nat × Nat) :
    pot.print_comments
      = String.join (((PotentialLAMMPS.splitNewlines pot.comments).filter
            (fun l => l ≠ "")).map
          (fun l => "print \"" ++ l ++ "\"\n"))
        ++ (if pot.dois = [] then ""
            else "print \"Publication(s) related to the potential:\"\n"
              ++ String.join (pot.dois.map (fun doi =>
                  "print \"https://doi.org/" ++ doi ++ "\"\n")))
        ++ (if pot.fileurls = [] then ""
            else "print \"Parameter file(s) can be downloaded at:\"\n"
              ++ String.join (pot.fileurls.map (fun url =>
                  "print \"" ++ url ++ "\"\n")))
    ∧ (∀ out, pot.pair_info atomicMass symbolsArg massesArg units prompt true d
          = Except.ok out → ∃ rest, out = pot.print_comments ++ rest) := by
  constructor
  · unfold PotentialLAMMPS.print_comments
    rw [foldl_ite_append_eq_join (fun line => line ≠ "")
      (fun line => "print \"" ++ line ++ "\"\n")
      (PotentialLAMMPS.splitNewlines pot.comments) ""]
    rw [String.empty_append]
    cases hd : pot.dois <;> cases hu : pot.fileurls <;>
      simp [foldl_append_eq_join, String.append_assoc, String.append_empty,
        string_join_cons]
  · intro out
    simp only [PotentialLAMMPS.pair_info, reduceIte]
    repeat' split
    all_goals try intro hout
    all_goals try cases hout
    all_goals repeat apply append_left_prefix
    all_goals exact ⟨"", (String.append_empty pot.print_comments).symm⟩

/-- Witness for C8: the `pair_info` output of `potC8` with comments enabled
begins with its comment-print block (non-empty comment lines `hi`, `yo`, and the
DOI block with its header). -/
theorem comment_prints_structure_witness :
    ∃ rest,
      "print \"hi\"\nprint \"yo\"\nprint \"Publication(s) related to the potential:\"\nprint \"https://doi.org/10.5/d\"\npair_style x\nmass 1 1\n\n"
        = potC8.print_comments ++ rest :=
  (comment_prints_structure potC8 (fun _ _ => 99) none none none false
    (2020, 10, 29)).2
    "print \"hi\"\nprint \"yo\"\nprint \"Publication(s) related to the potential:\"\nprint \"https://doi.org/10.5/d\"\npair_style x\nmass 1 1\n\n"
    (by rfl)
